import Mathlib

/-!
Shallow embedding of the headcannon-core tracking pipeline
(wire codec, UDP receiver session state, polling drain loop,
center-offset manager, tracking processor and math utilities),
translated from the C++ sources under src/cpp, together with
theorems settling the specification claims about them.

Modelling conventions:
* The wire codec (src/cpp/src/protocol/opentrack_packet.cpp) is modelled
  bit-exactly: a datagram is a list of bytes, 64-bit little-endian words
  are decoded to IEEE-754 binary64 sign/exponent/fraction fields, finite
  doubles become dyadic rationals, and the narrowing conversion
  static_cast from double to float is modelled as IEEE round-to-nearest-even
  at binary32 precision (overflow to infinity is not modelled; every claim
  evaluates it at small in-range values only).
* Receiver session state (udp_receiver.cpp / polling_udp_receiver.cpp)
  is modelled as explicit state records over the rationals; the time
  values returned by the steady clock are passed in as parameters.
* The processing pipeline (tracking_processor.cpp, smoothing_utils.h,
  deadzone_utils.h) uses transcendental exp, so it is modelled over the
  real numbers; float/double rounding is not modelled there, matching the
  real-valued arithmetic the spec describes.
-/

namespace HeadCannon

/-! ## Wire codec: OpenTrackPacket (opentrack_packet.cpp / opentrack_packet.h) -/

/-- Minimum packet size in bytes, OpenTrackPacket::kMinPacketSize. -/
def kMinPacketSize : Nat := 48

/-- Byte offset of yaw, OpenTrackPacket::kYawOffset. -/
def kYawOffset : Nat := 24

/-- Byte offset of pitch, OpenTrackPacket::kPitchOffset. -/
def kPitchOffset : Nat := 32

/-- Byte offset of roll, OpenTrackPacket::kRollOffset. -/
def kRollOffset : Nat := 40

/-- Byte read from a buffer at index i (the C++ code only dereferences
indices that the length guard has made valid; getD keeps the model total). -/
def byteAt (bs : List UInt8) (i : Nat) : Nat :=
  (bs.getD i 0).toNat

/-- Little-endian 64-bit word read at byte offset off, as std::memcpy of
8 bytes into a double does on a little-endian machine. -/
def leU64 (bs : List UInt8) (off : Nat) : Nat :=
  byteAt bs off +
    2 ^ 8 * (byteAt bs (off + 1) +
      2 ^ 8 * (byteAt bs (off + 2) +
        2 ^ 8 * (byteAt bs (off + 3) +
          2 ^ 8 * (byteAt bs (off + 4) +
            2 ^ 8 * (byteAt bs (off + 5) +
              2 ^ 8 * (byteAt bs (off + 6) +
                2 ^ 8 * byteAt bs (off + 7)))))))

/-- Biased exponent field of an IEEE-754 binary64 bit pattern. -/
def f64ExpBits (w : Nat) : Nat := w / 2 ^ 52 % 2 ^ 11

/-- Fraction field of an IEEE-754 binary64 bit pattern. -/
def f64Frac (w : Nat) : Nat := w % 2 ^ 52

/-- Sign field of an IEEE-754 binary64 bit pattern. -/
def f64SignBit (w : Nat) : Nat := w / 2 ^ 63

/-- A binary64 bit pattern is finite (neither NaN nor an infinity) exactly
when its exponent field is not all ones; std::isnan || std::isinf in the
parser rejects precisely the all-ones exponent patterns. -/
def f64IsFinite (w : Nat) : Bool := f64ExpBits w != 2047

/-- Value of a finite binary64 bit pattern as a dyadic pair
(signed significand, binary exponent). -/
def f64ToDyadic (w : Nat) : ℤ × ℤ :=
  let sign : ℤ := if f64SignBit w = 1 then -1 else 1
  if f64ExpBits w = 0 then
    (sign * f64Frac w, -1074)
  else
    (sign * (2 ^ 52 + f64Frac w), (f64ExpBits w : ℤ) - 1075)

/-- Number of bits of a natural number, fuel-bounded so that it reduces by
kernel computation; 64 bits of fuel cover every value a 64-bit word decode
can produce. -/
def bitLengthAux : Nat → Nat → Nat
  | 0, _ => 0
  | fuel + 1, n => if n = 0 then 0 else bitLengthAux fuel (n / 2) + 1

/-- Number of bits of a natural number (0 for 0). -/
def bitLength (n : Nat) : Nat := bitLengthAux 64 n

/-- Exact rational value of the dyadic pair m * 2 ^ e. -/
def dyadicToRat (m : ℤ) (e : ℤ) : ℚ :=
  if 0 ≤ e then mkRat (m * 2 ^ e.toNat) 1 else mkRat m (2 ^ (-e).toNat)

/-- Round a / 2 ^ shift to the nearest integer, ties to even. -/
def roundHalfEven (a : Nat) (shift : Nat) : Nat :=
  let q := a / 2 ^ shift
  let r := a % 2 ^ shift
  let half := 2 ^ (shift - 1)
  if r < half then q
  else if half < r then q + 1
  else if q % 2 = 0 then q else q + 1

/-- IEEE round-to-nearest-even narrowing of the dyadic value m * 2 ^ e to
binary32 precision (24 significant bits, minimum exponent -149), modelling
the static_cast from double to float on the parser's success path. -/
def narrowF32 (m : ℤ) (e : ℤ) : ℚ :=
  if m = 0 then 0
  else
    let a := m.natAbs
    let s : ℤ := if m < 0 then -1 else 1
    let binExp : ℤ := e + bitLength a - 1
    let t : ℤ := if binExp - 23 < -149 then -149 else binExp - 23
    if t ≤ e then dyadicToRat m e
    else dyadicToRat (s * roundHalfEven a (t - e).toNat) t

/-- Narrowed binary32 value of a finite binary64 bit pattern. -/
def narrowF64Bits (w : Nat) : ℚ :=
  narrowF32 (f64ToDyadic w).1 (f64ToDyadic w).2

/-- Pose produced by the codec: single-precision yaw/pitch/roll values
(as exact rationals) plus the capture timestamp in microseconds
(TrackingPose of tracking_pose.h; timestamp 0 is the never-set sentinel). -/
structure Pose where
  yaw : ℚ
  pitch : ℚ
  roll : ℚ
  timestamp_us : ℤ
  deriving DecidableEq, Repr

/-- Angle extraction of OpenTrackPacket::TryParse on a non-null buffer:
length guard, three little-endian binary64 reads at offsets 24/32/40,
finiteness validation, then narrowing to single precision. -/
def tryParseAngles (bytes : List UInt8) : Option (ℚ × ℚ × ℚ) :=
  if bytes.length < kMinPacketSize then none
  else
    let wy := leU64 bytes kYawOffset
    let wp := leU64 bytes kPitchOffset
    let wr := leU64 bytes kRollOffset
    if f64IsFinite wy && f64IsFinite wp && f64IsFinite wr then
      some (narrowF64Bits wy, narrowF64Bits wp, narrowF64Bits wr)
    else none

/-- OpenTrackPacket::TryParse with the caller's output pose passed through:
data = none models a null data pointer; on every failure path the pair
carries the caller's pose back unchanged, since the C++ assigns the output
reference only on the success line. now is the steady-clock reading used by
the TrackingPose(float, float, float) constructor. -/
def tryParse (now : ℤ) (data : Option (List UInt8)) (pose : Pose) :
    Bool × Pose :=
  match data with
  | none => (false, pose)
  | some bytes =>
    match tryParseAngles bytes with
    | none => (false, pose)
    | some (vy, vp, vr) => (true, ⟨vy, vp, vr, now⟩)

/-- The 48-byte example buffer of the spec: 24 ignored leading bytes, then
little-endian binary64 encodings of yaw = 10.0 (0x4024000000000000),
pitch = -5.0 (0xC014000000000000) and roll = 0.0. -/
def exampleBuffer : List UInt8 :=
  List.replicate 24 0 ++
    [0, 0, 0, 0, 0, 0, 0x24, 0x40] ++
    [0, 0, 0, 0, 0, 0, 0x14, 0xC0] ++
    [0, 0, 0, 0, 0, 0, 0, 0]

/-! ## Math utilities (deadzone_utils.h, smoothing_utils.h)

The processing pipeline computes with float/double values and a
transcendental exp; it is modelled over the real numbers. -/

/-- ApplyDeadzone of deadzone_utils.h: pass-through for a non-positive
threshold, zero inside the band, rescaled from the band edge outside it.
The C++ computes sign as (value >= 0 ? 1 : -1). -/
noncomputable def ApplyDeadzone (value deadzone : ℝ) : ℝ :=
  if deadzone ≤ 0 then value
  else if |value| ≤ deadzone then 0
  else (if 0 ≤ value then 1 else -1) * (|value| - deadzone)

/-- Lerp of smoothing_utils.h. -/
noncomputable def Lerp (a b t : ℝ) : ℝ := a + (b - a) * t

/-- Baseline smoothing for remote connections,
smoothing_utils.h kRemoteConnectionBaseline. -/
noncomputable def kRemoteConnectionBaseline : ℝ := 0.15

/-- CalculateSmoothingFactor of smoothing_utils.h: snap factor 1 below the
0.001 cutoff, otherwise the frame-rate independent exponential factor
1 - exp(-speed * delta_time) with speed = Lerp 50 0.1 smoothing. -/
noncomputable def CalculateSmoothingFactor (smoothing delta_time : ℝ) : ℝ :=
  if smoothing < 0.001 then 1
  else 1 - Real.exp (-(Lerp 50 0.1 smoothing) * delta_time)

/-- GetEffectiveSmoothing of smoothing_utils.h: substitute the remote
baseline when the sample is remote and the base smoothing is below it. -/
noncomputable def GetEffectiveSmoothing (base_smoothing : ℝ)
    (is_remote_connection : Bool) : ℝ :=
  if is_remote_connection = true ∧ base_smoothing < kRemoteConnectionBaseline
  then kRemoteConnectionBaseline
  else base_smoothing

/-! ## Center offset manager (center_offset_manager.cpp) -/

/-- CenterOffsetManager state: the stored reference pose's angular
components plus the has-valid-center flag (the stored timestamp is always
0 and is never read, so it is omitted). -/
structure CenterOffsetManager where
  centerYaw : ℝ
  centerPitch : ℝ
  centerRoll : ℝ
  hasValidCenter : Bool

/-- CenterOffsetManager::SetCenter(float, float, float). -/
def CenterOffsetManager.setCenter (_ : CenterOffsetManager)
    (yaw pitch roll : ℝ) : CenterOffsetManager :=
  ⟨yaw, pitch, roll, true⟩

/-- CenterOffsetManager::ApplyOffset: component-wise subtraction of the
reference, a no-op when no center is set. -/
noncomputable def CenterOffsetManager.applyOffset (m : CenterOffsetManager)
    (yaw pitch roll : ℝ) : ℝ × ℝ × ℝ :=
  if m.hasValidCenter = true then
    (yaw - m.centerYaw, pitch - m.centerPitch, roll - m.centerRoll)
  else (yaw, pitch, roll)

/-- CenterOffsetManager::Reset: default pose, flag cleared. -/
def CenterOffsetManager.reset (_ : CenterOffsetManager) :
    CenterOffsetManager :=
  ⟨0, 0, 0, false⟩

/-! ## Tracking processor (tracking_processor.cpp / tracking_processor.h) -/

/-- SensitivitySettings of tracking_pose.h. -/
structure SensitivitySettings where
  yaw : ℝ
  pitch : ℝ
  roll : ℝ
  invert_yaw : Bool
  invert_pitch : Bool
  invert_roll : Bool

/-- SensitivitySettings::Default(): multipliers 1, no inversion. -/
def SensitivitySettings.default : SensitivitySettings :=
  ⟨1, 1, 1, false, false, false⟩

/-- DeadzoneSettings of tracking_pose.h. -/
structure DeadzoneSettings where
  yaw : ℝ
  pitch : ℝ
  roll : ℝ

/-- DeadzoneSettings::None(): all thresholds 0. -/
def DeadzoneSettings.none : DeadzoneSettings := ⟨0, 0, 0⟩

/-- TrackingProcessor member state: owned center manager, the double
precision smoothed accumulator with its has-value flag, and the
configuration fields. -/
structure ProcState where
  centerManager : CenterOffsetManager
  smoothedYaw : ℝ
  smoothedPitch : ℝ
  smoothedRoll : ℝ
  hasSmoothedValue : Bool
  sensitivity : SensitivitySettings
  deadzone : DeadzoneSettings
  smoothingFactor : ℝ

/-- Freshly constructed TrackingProcessor with the given configuration
applied through the setters: default member initializers give an unset
center, a zero accumulator and a cleared has-smoothed-value flag. -/
def ProcState.init (sens : SensitivitySettings) (dz : DeadzoneSettings)
    (smoothing : ℝ) : ProcState :=
  ⟨⟨0, 0, 0, false⟩, 0, 0, 0, false, sens, dz, smoothing⟩

/-- TrackingProcessor::Process: offset, deadzone, smoothing (snap on the
first frame, otherwise exponential interpolation by the calculated
factor), then sensitivity scaling and inversion. Returns the output pose
angles paired with the updated processor state. -/
noncomputable def process (st : ProcState) (yaw pitch roll : ℝ)
    (is_remote_connection : Bool) (delta_time : ℝ) :
    (ℝ × ℝ × ℝ) × ProcState :=
  let off := st.centerManager.applyOffset yaw pitch roll
  let y := ApplyDeadzone off.1 st.deadzone.yaw
  let p := ApplyDeadzone off.2.1 st.deadzone.pitch
  let r := ApplyDeadzone off.2.2 st.deadzone.roll
  let eff := GetEffectiveSmoothing st.smoothingFactor is_remote_connection
  let sm :=
    if st.hasSmoothedValue = true then
      let t := CalculateSmoothingFactor eff delta_time
      (st.smoothedYaw + (y - st.smoothedYaw) * t,
        st.smoothedPitch + (p - st.smoothedPitch) * t,
        st.smoothedRoll + (r - st.smoothedRoll) * t)
    else (y, p, r)
  let outYaw := sm.1 * st.sensitivity.yaw
  let outPitch := sm.2.1 * st.sensitivity.pitch
  let outRoll := sm.2.2 * st.sensitivity.roll
  let outYaw := if st.sensitivity.invert_yaw then -outYaw else outYaw
  let outPitch := if st.sensitivity.invert_pitch then -outPitch else outPitch
  let outRoll := if st.sensitivity.invert_roll then -outRoll else outRoll
  ((outYaw, outPitch, outRoll),
    { st with
        smoothedYaw := sm.1
        smoothedPitch := sm.2.1
        smoothedRoll := sm.2.2
        hasSmoothedValue := true })

/-- TrackingProcessor::Recenter: store the current smoothed values as the
center; nothing else is touched. -/
def recenter (st : ProcState) : ProcState :=
  { st with
      centerManager :=
        st.centerManager.setCenter st.smoothedYaw st.smoothedPitch
          st.smoothedRoll }

/-- TrackingProcessor::RecenterTo: store an explicit center and zero the
smoothed accumulator. -/
def recenterTo (st : ProcState) (yaw pitch roll : ℝ) : ProcState :=
  { st with
      centerManager := st.centerManager.setCenter yaw pitch roll
      smoothedYaw := 0
      smoothedPitch := 0
      smoothedRoll := 0 }

/-- TrackingProcessor::Reset: reset the center manager, zero the
accumulator, clear the has-smoothed-value flag. -/
def resetProcessor (st : ProcState) : ProcState :=
  { st with
      centerManager := st.centerManager.reset
      smoothedYaw := 0
      smoothedPitch := 0
      smoothedRoll := 0
      hasSmoothedValue := false }

/-! ## Threaded receiver session state (udp_receiver.cpp / udp_receiver.h)

Only the session-scoped state the claims are about is modelled: the
published TrackingData slot, the recenter offsets, the last-receive
timestamp, the remote flag and the running flag. Pose components are
floats in the C++ with no arithmetic beyond subtraction, modelled
exactly as rationals. -/

structure ThreadedState where
  running : Bool
  trackingYaw : ℚ
  trackingPitch : ℚ
  trackingRoll : ℚ
  trackingHasData : Bool
  yawOffset : ℚ
  pitchOffset : ℚ
  rollOffset : ℚ
  lastReceiveTimestamp : ℤ
  isRemoteConnection : Bool
  deriving DecidableEq, Repr

/-- UdpReceiver::Stop: early-out when not running; otherwise join the
thread, close the transport, clear the running flag, reset the published
TrackingData and zero offsets, timestamp and remote flag. -/
def udpStop (s : ThreadedState) : ThreadedState :=
  if s.running = false then s
  else
    { s with
        running := false
        trackingYaw := 0
        trackingPitch := 0
        trackingRoll := 0
        trackingHasData := false
        yawOffset := 0
        pitchOffset := 0
        rollOffset := 0
        lastReceiveTimestamp := 0
        isRemoteConnection := false }

/-- UdpReceiver::GetRotation: none while no pose has been published,
otherwise the latest published values minus the current offsets. -/
def udpGetRotation (s : ThreadedState) : Option (ℚ × ℚ × ℚ) :=
  if s.trackingHasData = false then none
  else
    some (s.trackingYaw - s.yawOffset, s.trackingPitch - s.pitchOffset,
      s.trackingRoll - s.rollOffset)

/-! ## Polling receiver (polling_udp_receiver.cpp / polling_udp_receiver.h) -/

/-- Poll iteration cap, kMaxPacketsPerFrame. -/
def kMaxPacketsPerFrame : Nat := 1000

/-- Receive buffer size, kMaxBufferSize; recvfrom delivers at most this
many bytes of a datagram. -/
def kMaxBufferSize : Nat := 256

/-- PollingUdpReceiver member state (the socket itself is not modelled;
initialized = true stands for an initialized receiver with its socket
open, which Initialize establishes and Shutdown revokes together). -/
structure PollingState where
  initialized : Bool
  yaw : ℚ
  pitch : ℚ
  roll : ℚ
  hasData : Bool
  yawOffset : ℚ
  pitchOffset : ℚ
  rollOffset : ℚ
  hasOffset : Bool
  lastReceiveTimeMs : ℤ
  isRemoteConnection : Bool
  packetsReceived : Nat
  bytesReceived : Nat
  deriving DecidableEq, Repr

/-- PollingUdpReceiver::Initialize: no-op success when already
initialized; on socket-open failure (openOk = false) returns failure with
the state untouched; on success sets the initialized flag and clears the
timestamp, statistics, remote flag, has-data flag and has-offset flag
(the stale pose and offset component values themselves are not written,
only their flags). -/
def initializeReceiver (s : PollingState) (openOk : Bool) :
    Bool × PollingState :=
  if s.initialized = true then (true, s)
  else if openOk = false then (false, s)
  else
    (true,
      { s with
          initialized := true
          lastReceiveTimeMs := 0
          packetsReceived := 0
          bytesReceived := 0
          isRemoteConnection := false
          hasData := false
          hasOffset := false })

/-- PollingUdpReceiver::Shutdown: early-out when not initialized;
otherwise close the socket and clear the initialized flag. No other
member is written. -/
def pollingShutdown (s : PollingState) : PollingState :=
  if s.initialized = false then s
  else { s with initialized := false }

/-- PollingUdpReceiver::GetRotation: false until data has arrived,
otherwise the latest values, offset-subtracted when an offset is set. -/
def pollingGetRotation (s : PollingState) : Option (ℚ × ℚ × ℚ) :=
  if s.hasData = false then none
  else if s.hasOffset = true then
    some (s.yaw - s.yawOffset, s.pitch - s.pitchOffset,
      s.roll - s.rollOffset)
  else some (s.yaw, s.pitch, s.roll)

/-- One datagram waiting in the socket buffer: its payload bytes and
whether its sender address is remote (IsRemoteAddress of the sockaddr). -/
structure Datagram where
  bytes : List UInt8
  remoteSender : Bool
  deriving DecidableEq, Repr

/-- Number of bytes recvfrom delivers for a datagram: the payload
truncated to the receive buffer size. -/
def recvLen (d : Datagram) : Nat := min d.bytes.length kMaxBufferSize

/-- Buffer contents recvfrom delivers for a datagram. -/
def recvBytes (d : Datagram) : List UInt8 := d.bytes.take kMaxBufferSize

/-- PollingUdpReceiver::ParsePacket via the shared codec, applied to the
delivered bytes; some angles on success. -/
def parsePacket (d : Datagram) : Option (ℚ × ℚ × ℚ) :=
  tryParseAngles (recvBytes d)

/-- State update for one successfully parsed datagram inside Poll's drain
loop: bump statistics, store the parsed pose into the latest slot, set the
has-data flag, reclassify the sender. -/
def pollApply (s : PollingState) (d : Datagram) : PollingState :=
  match parsePacket d with
  | Option.none => s
  | Option.some v =>
    { s with
        packetsReceived := s.packetsReceived + 1
        bytesReceived := s.bytesReceived + recvLen d
        yaw := v.1
        pitch := v.2.1
        roll := v.2.2
        hasData := true
        isRemoteConnection := d.remoteSender }

/-- Poll's drain loop over the queued datagrams: stops on an exhausted
queue (would-block), on the iteration cap, or on a zero-byte datagram;
otherwise attempts a parse (failures change nothing) and continues.
Returns the receivedAny flag and the resulting state. -/
def pollLoop : List Datagram → Nat → PollingState → Bool × PollingState
  | [], _, s => (false, s)
  | d :: rest, fuel, s =>
    if fuel = 0 then (false, s)
    else if recvLen d = 0 then (false, s)
    else
      let s1 := pollApply s d
      let res := pollLoop rest (fuel - 1) s1
      ((parsePacket d).isSome || res.1, res.2)

/-- PollingUdpReceiver::Poll: guard on initialization, drain up to
kMaxPacketsPerFrame datagrams, and stamp the last-receive time (now, the
current steady-clock milliseconds) when anything was received. -/
def poll (now : ℤ) (s : PollingState) (queue : List Datagram) :
    Bool × PollingState :=
  if s.initialized = false then (false, s)
  else
    let res := pollLoop queue kMaxPacketsPerFrame s
    (res.1,
      if res.1 = true then { res.2 with lastReceiveTimeMs := now }
      else res.2)

/-- Prefix of the queue that the drain loop attempts to parse: cut at the
fuel bound and at the first zero-byte datagram. -/
def drainList : List Datagram → Nat → List Datagram
  | [], _ => []
  | d :: rest, fuel =>
    if fuel = 0 then []
    else if recvLen d = 0 then []
    else d :: drainList rest (fuel - 1)

/-- Datagrams of a list that parse successfully. -/
def successes (l : List Datagram) : List Datagram :=
  l.filter (fun d => (parsePacket d).isSome)

/-! ## Theorems -/

/-- C6: for every value v and threshold t > 0, ApplyDeadzone v t is 0 when
the magnitude is within the threshold and sign(v) * (|v| - t) beyond it;
with threshold 2 it maps 1 to 0, 3 to 1 and -3 to -1; the value at
exactly the threshold is 0 and matches the limit from above, so the
output is continuous at the threshold. -/
theorem c6_deadzone_rescale :
    (∀ v t : ℝ, 0 < t →
      (|v| ≤ t → ApplyDeadzone v t = 0) ∧
      (t < |v| → ApplyDeadzone v t = Real.sign v * (|v| - t))) ∧
    ApplyDeadzone 1 2 = 0 ∧ ApplyDeadzone 3 2 = 1 ∧
    ApplyDeadzone (-3) 2 = -1 ∧ ApplyDeadzone 2 2 = 0 ∧
    Filter.Tendsto (fun v : ℝ => ApplyDeadzone v 2)
      (nhdsWithin 2 (Set.Ioi 2)) (nhds 0) := by
  refine ⟨fun v t ht => ⟨fun hin => ?_, fun hout => ?_⟩, ?_, ?_, ?_, ?_, ?_⟩
  · rw [ApplyDeadzone, if_neg (not_le.mpr ht), if_pos hin]
  · rw [ApplyDeadzone, if_neg (not_le.mpr ht), if_neg (not_le.mpr hout)]
    rcases le_or_lt 0 v with hv | hv
    · have hvpos : 0 < v := by
        rcases hv.eq_or_lt with h | h
        · simp [← h, abs_zero] at hout; linarith
        · exact h
      rw [if_pos hv, Real.sign_of_pos hvpos]
    · rw [if_neg (not_le.mpr hv), Real.sign_of_neg hv]
  · rw [ApplyDeadzone]; norm_num
  · rw [ApplyDeadzone]; norm_num
  · rw [ApplyDeadzone]; norm_num
  · rw [ApplyDeadzone]; norm_num
  · have hcong : (fun v : ℝ => v - 2) =ᶠ[nhdsWithin 2 (Set.Ioi 2)]
        fun v : ℝ => ApplyDeadzone v 2 := by
      filter_upwards [self_mem_nhdsWithin] with v hv
      have h2v : (2 : ℝ) < v := hv
      have : |v| = v := abs_of_pos (by linarith)
      rw [ApplyDeadzone, if_neg (by norm_num), if_neg (by rw [this]; linarith),
        if_pos (by linarith), this]
      ring
    refine Filter.Tendsto.congr' hcong ?_
    have h2 : Filter.Tendsto (fun v : ℝ => v - 2) (nhds 2) (nhds (2 - 2)) :=
      Filter.Tendsto.sub Filter.tendsto_id tendsto_const_nhds
    have h3 : Filter.Tendsto (fun v : ℝ => v - 2) (nhds 2) (nhds 0) := by
      simpa using h2
    exact h3.mono_left nhdsWithin_le_nhds

/-- C6 witness: the universally quantified part applied at v = 1, t = 2. -/
theorem c6_deadzone_rescale_witness :
    (0 : ℝ) < 2 ∧ ApplyDeadzone 1 2 = 0 :=
  ⟨by norm_num,
    (c6_deadzone_rescale.1 1 2 (by norm_num)).1 (by norm_num)⟩

/-- C8: the effective smoothing floors a remote sample's smoothing at the
0.15 baseline, leaves local samples untouched, never modifies the
processor's stored smoothing configuration, and takes the spec's values
on the three given inputs. -/
theorem c8_effective_smoothing :
    (∀ s : ℝ, GetEffectiveSmoothing s true =
      if s < 0.15 then (0.15 : ℝ) else s) ∧
    (∀ s : ℝ, GetEffectiveSmoothing s false = s) ∧
    (∀ (st : ProcState) (y p r : ℝ) (rem : Bool) (dt : ℝ),
      ((process st y p r rem dt).2).smoothingFactor = st.smoothingFactor) ∧
    GetEffectiveSmoothing 0.05 true = 0.15 ∧
    GetEffectiveSmoothing 0.2 true = 0.2 ∧
    GetEffectiveSmoothing 0.05 false = 0.05 := by
  refine ⟨fun s => ?_, fun s => ?_, fun st y p r rem dt => rfl, ?_, ?_, ?_⟩
  · rw [GetEffectiveSmoothing, kRemoteConnectionBaseline]
    by_cases h : s < 0.15
    · rw [if_pos ⟨rfl, h⟩, if_pos h]
    · rw [if_neg (by simp [h]), if_neg h]
  · rw [GetEffectiveSmoothing]
    simp
  · rw [GetEffectiveSmoothing, kRemoteConnectionBaseline]
    norm_num
  · rw [GetEffectiveSmoothing, kRemoteConnectionBaseline]
    norm_num
  · rw [GetEffectiveSmoothing]
    simp

/-- C9: Recenter only stores the current smoothed values as the center,
RecenterTo stores the given center and zeroes the accumulator (leaving
the has-smoothed-value flag alone), Reset clears center, accumulator and
flag, and a Process call right after Reset snaps the accumulator to the
deadzoned target. -/
theorem c9_recenter_asymmetry :
    (∀ st : ProcState, recenter st =
      { st with centerManager :=
          ⟨st.smoothedYaw, st.smoothedPitch, st.smoothedRoll, true⟩ }) ∧
    (∀ (st : ProcState) (y p r : ℝ), recenterTo st y p r =
      { st with
          centerManager := ⟨y, p, r, true⟩
          smoothedYaw := 0
          smoothedPitch := 0
          smoothedRoll := 0 }) ∧
    (∀ st : ProcState, resetProcessor st =
      { st with
          centerManager := ⟨0, 0, 0, false⟩
          smoothedYaw := 0
          smoothedPitch := 0
          smoothedRoll := 0
          hasSmoothedValue := false }) ∧
    (∀ (st : ProcState) (y p r : ℝ) (rem : Bool) (dt : ℝ),
      ((process (resetProcessor st) y p r rem dt).2).smoothedYaw =
          ApplyDeadzone y st.deadzone.yaw ∧
        ((process (resetProcessor st) y p r rem dt).2).smoothedPitch =
          ApplyDeadzone p st.deadzone.pitch ∧
        ((process (resetProcessor st) y p r rem dt).2).smoothedRoll =
          ApplyDeadzone r st.deadzone.roll) := by
  refine ⟨fun st => rfl, fun st y p r => rfl, fun st => rfl,
    fun st y p r rem dt => ?_⟩
  simp [process, resetProcessor, CenterOffsetManager.reset,
    CenterOffsetManager.applyOffset]

/-- C10: whenever TryParse reports failure (null data pointer, short
buffer, or non-finite angle payload) the caller's output pose comes back
bit-for-bit unchanged; the output is written only on the success path. -/
theorem c10_failure_leaves_pose :
    (∀ (now : ℤ) (data : Option (List UInt8)) (pose : Pose),
      (tryParse now data pose).1 = false →
        (tryParse now data pose).2 = pose) ∧
    (∀ (now : ℤ) (pose : Pose), tryParse now Option.none pose =
      (false, pose)) := by
  refine ⟨fun now data pose h => ?_, fun now pose => rfl⟩
  match data with
  | Option.none => rfl
  | Option.some bytes =>
    rw [tryParse] at h ⊢
    match htp : tryParseAngles bytes with
    | Option.none => rfl
    | Option.some v => rw [htp] at h; exact absurd h (by simp)

/-- C10 witness: a 10-byte buffer fails the length guard and a concrete
pose value passes through unchanged. -/
theorem c10_failure_leaves_pose_witness :
    (tryParse 7 (Option.some (List.replicate 10 0)) ⟨1, 2, 3, 4⟩).2 =
      ⟨1, 2, 3, 4⟩ :=
  c10_failure_leaves_pose.1 7 (Option.some (List.replicate 10 0))
    ⟨1, 2, 3, 4⟩ (by decide)

/-- Failure characterization of the angle extraction: exactly the short
buffers and the buffers whose yaw, pitch or roll word has an all-ones
exponent field (NaN or infinity) are rejected. -/
theorem tryParseAngles_eq_none_iff (bytes : List UInt8) :
    tryParseAngles bytes = Option.none ↔
      bytes.length < kMinPacketSize ∨
        f64IsFinite (leU64 bytes kYawOffset) = false ∨
        f64IsFinite (leU64 bytes kPitchOffset) = false ∨
        f64IsFinite (leU64 bytes kRollOffset) = false := by
  rw [tryParseAngles]
  by_cases hlen : bytes.length < kMinPacketSize
  · simp [hlen]
  · rw [if_neg hlen]
    by_cases hy : f64IsFinite (leU64 bytes kYawOffset) = false
    · simp [hlen, hy]
    · by_cases hp : f64IsFinite (leU64 bytes kPitchOffset) = false
      · simp [hlen, hy, hp]
      · by_cases hr : f64IsFinite (leU64 bytes kRollOffset) = false
        · simp [hlen, hy, hp, hr]
        · simp only [Bool.not_eq_false] at hy hp hr
          simp [hlen, hy, hp, hr]

/-- Success characterization of the angle extraction: a parsed triple is
the narrowed yaw/pitch/roll words. -/
theorem tryParseAngles_success (bytes : List UInt8) (v : ℚ × ℚ × ℚ)
    (h : tryParseAngles bytes = Option.some v) :
    v = (narrowF64Bits (leU64 bytes kYawOffset),
      narrowF64Bits (leU64 bytes kPitchOffset),
      narrowF64Bits (leU64 bytes kRollOffset)) := by
  simp only [tryParseAngles] at h
  split at h
  · exact absurd h (by simp)
  · split at h
    · exact (Option.some.inj h).symm
    · exact absurd h (by simp)

/-- C1: on a non-null buffer TryParse fails exactly when the length is
below 48 bytes or one of the three binary64 words at offsets 24/32/40 is
NaN or infinite (all-ones exponent field); on success the produced pose
carries the three doubles narrowed to single precision and the current
(nonzero) timestamp; the spec's example buffer with yaw 10.0, pitch -5.0,
roll 0.0 parses to exactly those single-precision values. -/
theorem c1_tryParse_contract (now : ℤ) (hnow : 0 < now) :
    (∀ (bytes : List UInt8) (pose : Pose),
      (tryParse now (Option.some bytes) pose).1 = false ↔
        bytes.length < kMinPacketSize ∨
          f64IsFinite (leU64 bytes kYawOffset) = false ∨
          f64IsFinite (leU64 bytes kPitchOffset) = false ∨
          f64IsFinite (leU64 bytes kRollOffset) = false) ∧
    (∀ (bytes : List UInt8) (pose : Pose),
      (tryParse now (Option.some bytes) pose).1 = true →
        (tryParse now (Option.some bytes) pose).2 =
            ⟨narrowF64Bits (leU64 bytes kYawOffset),
              narrowF64Bits (leU64 bytes kPitchOffset),
              narrowF64Bits (leU64 bytes kRollOffset), now⟩ ∧
          (tryParse now (Option.some bytes) pose).2.timestamp_us ≠ 0) ∧
    (∀ pose : Pose, tryParse now (Option.some exampleBuffer) pose =
      (true, ⟨10, -5, 0, now⟩)) := by
  refine ⟨fun bytes pose => ?_, fun bytes pose h => ?_, fun pose => ?_⟩
  · rw [← tryParseAngles_eq_none_iff, tryParse]
    cases htp : tryParseAngles bytes with
    | none => simp
    | some v => simp
  · cases htp : tryParseAngles bytes with
    | none => rw [tryParse, htp] at h; exact absurd h (by simp)
    | some v =>
      obtain ⟨vy, vp, vr⟩ := v
      have hv := tryParseAngles_success bytes (vy, vp, vr) htp
      simp only [Prod.mk.injEq] at hv
      obtain ⟨h1, h2, h3⟩ := hv
      subst h1; subst h2; subst h3
      rw [tryParse, htp]
      exact ⟨rfl, hnow.ne'⟩
  · have hang : tryParseAngles exampleBuffer = Option.some (10, -5, 0) := by
      decide
    rw [tryParse, hang]

/-- C1 witness: the contract applied at timestamp 1 to the example buffer
with an all-zero caller pose. -/
theorem c1_tryParse_contract_witness :
    tryParse 1 (Option.some exampleBuffer) ⟨0, 0, 0, 0⟩ =
      (true, ⟨10, -5, 0, 1⟩) :=
  (c1_tryParse_contract 1 (by norm_num)).2.2 ⟨0, 0, 0, 0⟩

/-- A first-frame Process call (has-smoothed-value flag clear) snaps the
accumulator to the offset-and-deadzoned target for every configuration. -/
theorem process_snap (st : ProcState) (y p r : ℝ) (rem : Bool) (dt : ℝ)
    (h : st.hasSmoothedValue = false) :
    ((process st y p r rem dt).2).smoothedYaw =
        ApplyDeadzone ((st.centerManager.applyOffset y p r).1)
          st.deadzone.yaw ∧
      ((process st y p r rem dt).2).smoothedPitch =
        ApplyDeadzone ((st.centerManager.applyOffset y p r).2.1)
          st.deadzone.pitch ∧
      ((process st y p r rem dt).2).smoothedRoll =
        ApplyDeadzone ((st.centerManager.applyOffset y p r).2.2)
          st.deadzone.roll := by
  simp [process, h]

/-- With an effective smoothing at or above the 0.001 cutoff, the
interpolation factor at delta-time 0 is 1 - exp 0 = 0. -/
theorem smoothing_factor_at_zero_dt (s : ℝ) (h : ¬s < 0.001) :
    CalculateSmoothingFactor s 0 = 0 := by
  rw [CalculateSmoothingFactor, if_neg h, mul_zero, Real.exp_zero, sub_self]

/-- Deadzoning the residual of a value minus its own deadzoned image
yields 0: the residual magnitude never exceeds the threshold. -/
theorem deadzone_cancel (y t : ℝ) :
    ApplyDeadzone (y - ApplyDeadzone y t) t = 0 := by
  rcases le_or_lt t 0 with ht | ht
  · rw [ApplyDeadzone, if_pos ht, ApplyDeadzone, if_pos ht, sub_self]
  · rcases le_or_lt |y| t with hin | hout
    · have hinner : ApplyDeadzone y t = 0 := by
        rw [ApplyDeadzone, if_neg (not_le.mpr ht), if_pos hin]
      rw [hinner, sub_zero, hinner]
    · have hinner : ApplyDeadzone y t =
          (if 0 ≤ y then (1 : ℝ) else -1) * (|y| - t) := by
        rw [ApplyDeadzone, if_neg (not_le.mpr ht), if_neg (not_le.mpr hout)]
      rcases le_or_lt 0 y with hy | hy
      · rw [hinner, if_pos hy, one_mul, abs_of_nonneg hy]
        have hres : y - (y - t) = t := by ring
        rw [hres, ApplyDeadzone, if_neg (not_le.mpr ht),
          if_pos (le_of_eq (abs_of_pos ht))]
      · rw [hinner, if_neg (not_le.mpr hy), abs_of_neg hy]
        have hres : y - -1 * (-y - t) = -t := by ring
        rw [hres, ApplyDeadzone, if_neg (not_le.mpr ht),
          if_pos (by rw [abs_neg]; exact le_of_eq (abs_of_pos ht))]

/-- C2 (amended): Process snaps the accumulator to the deadzoned target
on the first call after construction or Reset for every configured
smoothing value; a later call with delta_time = 0 does not snap: whenever
the effective smoothing is at or above the 0.001 cutoff its interpolation
factor is 1 - exp 0 = 0, so the accumulator holds the previous smoothed
value unchanged. -/
theorem c2_first_call_snaps :
    (∀ (st : ProcState) (y p r : ℝ) (rem : Bool) (dt : ℝ),
      st.hasSmoothedValue = false →
        ((process st y p r rem dt).2).smoothedYaw =
            ApplyDeadzone ((st.centerManager.applyOffset y p r).1)
              st.deadzone.yaw ∧
          ((process st y p r rem dt).2).smoothedPitch =
            ApplyDeadzone ((st.centerManager.applyOffset y p r).2.1)
              st.deadzone.pitch ∧
          ((process st y p r rem dt).2).smoothedRoll =
            ApplyDeadzone ((st.centerManager.applyOffset y p r).2.2)
              st.deadzone.roll) ∧
    (∀ (st : ProcState) (y p r : ℝ) (rem : Bool),
      st.hasSmoothedValue = true →
        0.001 ≤ GetEffectiveSmoothing st.smoothingFactor rem →
          ((process st y p r rem 0).2).smoothedYaw = st.smoothedYaw ∧
            ((process st y p r rem 0).2).smoothedPitch =
              st.smoothedPitch ∧
            ((process st y p r rem 0).2).smoothedRoll = st.smoothedRoll) := by
  refine ⟨fun st y p r rem dt h => process_snap st y p r rem dt h,
    fun st y p r rem h heff => ?_⟩
  have hfac : CalculateSmoothingFactor
      (GetEffectiveSmoothing st.smoothingFactor rem) 0 = 0 :=
    smoothing_factor_at_zero_dt _ (not_lt.mpr heff)
  simp [process, h, hfac]

/-- C2 witness: the snap clause applied to a freshly constructed
processor with smoothing 1/2 processing yaw 3. -/
theorem c2_first_call_snaps_witness :
    ((process (ProcState.init SensitivitySettings.default
        DeadzoneSettings.none (1 / 2)) 3 0 0 false 1).2).smoothedYaw =
      ApplyDeadzone
        (((ProcState.init SensitivitySettings.default DeadzoneSettings.none
          (1 / 2)).centerManager.applyOffset 3 0 0).1)
        (ProcState.init SensitivitySettings.default DeadzoneSettings.none
          (1 / 2)).deadzone.yaw :=
  (c2_first_call_snaps.1 (ProcState.init SensitivitySettings.default
    DeadzoneSettings.none (1 / 2)) 3 0 0 false 1 rfl).1

/-- Processor state after one Process(1, 0, 0, local, dt 1) call on a
freshly constructed processor configured with default sensitivity, no
deadzone and smoothing 1/2; its accumulator snapped to (1, 0, 0). -/
noncomputable def procAfterOne : ProcState :=
  (process (ProcState.init SensitivitySettings.default DeadzoneSettings.none
    (1 / 2)) 1 0 0 false 1).2

theorem procAfterOne_smoothedYaw : procAfterOne.smoothedYaw = 1 := by
  have h := (process_snap (ProcState.init SensitivitySettings.default
    DeadzoneSettings.none (1 / 2)) 1 0 0 false 1 rfl).1
  rw [procAfterOne, h]
  simp [ApplyDeadzone, ProcState.init, DeadzoneSettings.none,
    CenterOffsetManager.applyOffset]

theorem procAfterOne_smoothedPitch : procAfterOne.smoothedPitch = 0 := by
  have h := (process_snap (ProcState.init SensitivitySettings.default
    DeadzoneSettings.none (1 / 2)) 1 0 0 false 1 rfl).2.1
  rw [procAfterOne, h]
  simp [ApplyDeadzone, ProcState.init, DeadzoneSettings.none,
    CenterOffsetManager.applyOffset]

theorem procAfterOne_smoothedRoll : procAfterOne.smoothedRoll = 0 := by
  have h := (process_snap (ProcState.init SensitivitySettings.default
    DeadzoneSettings.none (1 / 2)) 1 0 0 false 1 rfl).2.2
  rw [procAfterOne, h]
  simp [ApplyDeadzone, ProcState.init, DeadzoneSettings.none,
    CenterOffsetManager.applyOffset]

/-- C2 counterexample: on the processor that already smoothed one sample
(smoothing 1/2), a call with delta_time 0 and raw yaw 2 has deadzoned
target 2 but leaves the accumulator at 1: the claimed snap on zero
delta-time does not happen. -/
theorem c2_zero_dt_does_not_snap :
    ApplyDeadzone ((procAfterOne.centerManager.applyOffset 2 0 0).1)
        procAfterOne.deadzone.yaw = 2 ∧
      ((process procAfterOne 2 0 0 false 0).2).smoothedYaw = 1 ∧
      (1 : ℝ) ≠ 2 := by
  refine ⟨?_, ?_, by norm_num⟩
  · rw [show (procAfterOne.centerManager.applyOffset 2 0 0) = (2, 0, 0)
      from rfl]
    rw [show procAfterOne.deadzone.yaw = 0 from rfl]
    rw [ApplyDeadzone, if_pos (le_refl 0)]
  · have hh : procAfterOne.hasSmoothedValue = true := rfl
    have heff : (0.001 : ℝ) ≤
        GetEffectiveSmoothing procAfterOne.smoothingFactor false := by
      rw [show procAfterOne.smoothingFactor = 1 / 2 from rfl,
        GetEffectiveSmoothing]
      norm_num
    have hfac : CalculateSmoothingFactor
        (GetEffectiveSmoothing procAfterOne.smoothingFactor false) 0 = 0 :=
      smoothing_factor_at_zero_dt _ (not_lt.mpr heff)
    simp [process, hh, hfac, procAfterOne_smoothedYaw]

/-- C3 counterexample: with smoothing 1/2 (multipliers 1, nothing
inverted, no deadzone), processing yaw 1, recentering, and processing the
identical sample again returns a nonzero yaw, not 0: the accumulator only
decays toward the recentered target. -/
theorem c3_recenter_not_zero :
    ((process (recenter procAfterOne) 1 0 0 false 1).1).1 ≠ 0 := by
  have hY := procAfterOne_smoothedYaw
  have hflag : procAfterOne.hasSmoothedValue = true := rfl
  have hcfg : procAfterOne.smoothingFactor = 1 / 2 := rfl
  have hdz : procAfterOne.deadzone = DeadzoneSettings.none := rfl
  have hsens : procAfterOne.sensitivity = SensitivitySettings.default := rfl
  have hc : ¬((2 : ℝ)⁻¹ < 1e-3) := by norm_num
  simp [process, recenter, CenterOffsetManager.setCenter,
    CenterOffsetManager.applyOffset, GetEffectiveSmoothing,
    kRemoteConnectionBaseline, CalculateSmoothingFactor, hY, hflag, hcfg,
    hdz, hsens, DeadzoneSettings.none, SensitivitySettings.default,
    ApplyDeadzone, hc]

/-- C3 (amended): for a freshly constructed or Reset processor with
multipliers 1, no axis inverted, and configured smoothing below the 0.001
snap cutoff, processing a sample, recentering, and re-processing the
identical raw sample locally returns the pose (0, 0, 0); with smoothing
at or above the cutoff the second output is only an exponential decay of
the first smoothed value toward 0 (see the counterexample). -/
theorem c3_recenter_reprocess_zero (dz : DeadzoneSettings)
    (smoothing y p r : ℝ) (rem : Bool) (dt dt' : ℝ)
    (hs : smoothing < 0.001) :
    (process (recenter ((process
        (ProcState.init SensitivitySettings.default dz smoothing)
        y p r rem dt).2)) y p r false dt').1 = (0, 0, 0) := by
  have hsnap := process_snap
    (ProcState.init SensitivitySettings.default dz smoothing) y p r rem dt
    rfl
  have hoff : ((ProcState.init SensitivitySettings.default dz
      smoothing).centerManager.applyOffset y p r) = (y, p, r) := by
    simp [ProcState.init, CenterOffsetManager.applyOffset]
  rw [hoff] at hsnap
  obtain ⟨h1, h2, h3⟩ := hsnap
  simp [process, recenter, CenterOffsetManager.setCenter,
    CenterOffsetManager.applyOffset, h1, h2, h3, GetEffectiveSmoothing,
    CalculateSmoothingFactor, hs, deadzone_cancel, ProcState.init,
    SensitivitySettings.default]

/-- C3 witness: the amended statement applied with deadzone thresholds 2,
smoothing 0 and raw sample (3, 1, -4). -/
theorem c3_recenter_reprocess_zero_witness :
    (process (recenter ((process
        (ProcState.init SensitivitySettings.default ⟨2, 2, 2⟩ 0)
        3 1 (-4) false 1).2)) 3 1 (-4) false 1).1 = (0, 0, 0) :=
  c3_recenter_reprocess_zero ⟨2, 2, 2⟩ 0 3 1 (-4) false 1 1 (by norm_num)

/-- C7 counterexample: 0.0005 lies in (0, 1) but the smoothing factor is
the constant 1 there (the 0.001 cutoff branch), so it is not strictly
increasing in delta-time. -/
theorem c7_not_strict_mono_below_cutoff :
    (0 : ℝ) < 0.0005 ∧ (0.0005 : ℝ) < 1 ∧
      ¬StrictMono (fun dt : ℝ => CalculateSmoothingFactor 0.0005 dt) := by
  refine ⟨by norm_num, by norm_num, fun h => ?_⟩
  have h01 := h (show (0 : ℝ) < 1 by norm_num)
  have e0 : CalculateSmoothingFactor 0.0005 0 = 1 := by
    rw [CalculateSmoothingFactor, if_pos (by norm_num)]
  have e1 : CalculateSmoothingFactor 0.0005 1 = 1 := by
    rw [CalculateSmoothingFactor, if_pos (by norm_num)]
  simp only [e0, e1] at h01
  exact lt_irrefl 1 h01

/-- C7 (amended): the smoothing factor is identically 1 whenever the
configured smoothing is below 0.001 (for smoothing in (0, 0.001) it is
therefore constant, not strictly increasing); for fixed smoothing in
[0.001, 1) it is strictly increasing in delta-time; and for every fixed
smoothing in (0, 1) it tends to 1 as delta-time grows without bound. -/
theorem c7_smoothing_factor_shape :
    (∀ s dt : ℝ, s < 0.001 → CalculateSmoothingFactor s dt = 1) ∧
    (∀ s : ℝ, 0.001 ≤ s → s < 1 →
      StrictMono (fun dt : ℝ => CalculateSmoothingFactor s dt)) ∧
    (∀ s : ℝ, 0 < s → s < 1 →
      Filter.Tendsto (fun dt : ℝ => CalculateSmoothingFactor s dt)
        Filter.atTop (nhds 1)) := by
  have hspeed : ∀ s : ℝ, s < 1 → 0 < Lerp 50 0.1 s := by
    intro s hs1
    rw [Lerp]
    nlinarith
  refine ⟨fun s dt hs => ?_, fun s hs0 hs1 => ?_, fun s hs0 hs1 => ?_⟩
  · rw [CalculateSmoothingFactor, if_pos hs]
  · intro a b hab
    have hL := hspeed s hs1
    simp only [CalculateSmoothingFactor, if_neg (not_lt.mpr hs0)]
    have hexp : Real.exp (-Lerp 50 0.1 s * b) <
        Real.exp (-Lerp 50 0.1 s * a) := by
      apply Real.exp_lt_exp.mpr
      nlinarith
    linarith
  · by_cases hc : s < 0.001
    · simp only [CalculateSmoothingFactor, if_pos hc]
      exact tendsto_const_nhds
    · simp only [CalculateSmoothingFactor, if_neg hc]
      have hL := hspeed s hs1
      have hlin : Filter.Tendsto (fun dt : ℝ => -Lerp 50 0.1 s * dt)
          Filter.atTop Filter.atBot :=
        Filter.Tendsto.const_mul_atTop_of_neg (neg_lt_zero.mpr hL)
          Filter.tendsto_id
      have hexp : Filter.Tendsto
          (fun dt : ℝ => Real.exp (-Lerp 50 0.1 s * dt)) Filter.atTop
          (nhds 0) := Real.tendsto_exp_atBot.comp hlin
      have hconst : Filter.Tendsto (fun _ : ℝ => (1 : ℝ)) Filter.atTop
          (nhds 1) := tendsto_const_nhds
      have hsub := Filter.Tendsto.sub hconst hexp
      simpa using hsub

/-- C7 witness: the cutoff clause applied at smoothing 0.0005 and
delta-time 7. -/
theorem c7_smoothing_factor_shape_witness :
    CalculateSmoothingFactor 0.0005 7 = 1 :=
  c7_smoothing_factor_shape.1 0.0005 7 (by norm_num)

/-- A datagram that fails to parse leaves the polling state untouched. -/
theorem pollApply_none (s : PollingState) (d : Datagram)
    (h : parsePacket d = Option.none) : pollApply s d = s := by
  rw [pollApply, h]

/-- Members of the successes sublist all parse successfully. -/
theorem successes_mem (l : List Datagram) (d : Datagram)
    (h : d ∈ successes l) : (parsePacket d).isSome = true :=
  (List.mem_filter.mp h).2

/-- The drain loop returns the any-success flag over the drained prefix
and folds the per-success update over exactly the successful datagrams of
that prefix. -/
theorem pollLoop_characterization (q : List Datagram) :
    ∀ (fuel : Nat) (s : PollingState),
      pollLoop q fuel s = (!(successes (drainList q fuel)).isEmpty,
        (successes (drainList q fuel)).foldl pollApply s) := by
  induction q with
  | nil => intro fuel s; simp [pollLoop, drainList, successes]
  | cons d rest ih =>
    intro fuel s
    by_cases hf : fuel = 0
    · simp [pollLoop, drainList, hf, successes]
    · by_cases hr : recvLen d = 0
      · simp [pollLoop, drainList, hf, hr, successes]
      · simp only [pollLoop, if_neg hf, if_neg hr, drainList]
        rw [ih (fuel - 1) (pollApply s d)]
        by_cases hp : (parsePacket d).isSome = true
        · simp [successes, List.filter_cons, hp]
        · have hnone : parsePacket d = Option.none :=
            Option.not_isSome_iff_eq_none.mp (by simp [hp])
          simp [successes, List.filter_cons, hp,
            pollApply_none s d hnone]

/-- Folding the success update counts one packet per datagram. -/
theorem foldl_pollApply_packets (l : List Datagram) :
    ∀ s : PollingState, (∀ d ∈ l, (parsePacket d).isSome = true) →
      (l.foldl pollApply s).packetsReceived =
        s.packetsReceived + l.length := by
  induction l with
  | nil => intro s _; simp
  | cons d tl ih =>
    intro s h
    obtain ⟨v, hv⟩ := Option.isSome_iff_exists.mp
      (h d (List.mem_cons_self d tl))
    have happ : pollApply s d =
        { s with
            packetsReceived := s.packetsReceived + 1
            bytesReceived := s.bytesReceived + recvLen d
            yaw := v.1
            pitch := v.2.1
            roll := v.2.2
            hasData := true
            isRemoteConnection := d.remoteSender } := by
      rw [pollApply, hv]
    rw [List.foldl_cons, ih (pollApply s d)
      (fun x hx => h x (List.mem_cons_of_mem d hx)), happ]
    simp
    omega

/-- Folding the success update accumulates the delivered byte counts. -/
theorem foldl_pollApply_bytes (l : List Datagram) :
    ∀ s : PollingState, (∀ d ∈ l, (parsePacket d).isSome = true) →
      (l.foldl pollApply s).bytesReceived =
        s.bytesReceived + (l.map recvLen).sum := by
  induction l with
  | nil => intro s _; simp
  | cons d tl ih =>
    intro s h
    obtain ⟨v, hv⟩ := Option.isSome_iff_exists.mp
      (h d (List.mem_cons_self d tl))
    have happ : pollApply s d =
        { s with
            packetsReceived := s.packetsReceived + 1
            bytesReceived := s.bytesReceived + recvLen d
            yaw := v.1
            pitch := v.2.1
            roll := v.2.2
            hasData := true
            isRemoteConnection := d.remoteSender } := by
      rw [pollApply, hv]
    rw [List.foldl_cons, ih (pollApply s d)
      (fun x hx => h x (List.mem_cons_of_mem d hx)), happ]
    simp
    omega

/-- C5: over the datagrams drained by one Poll call, Poll returns true
exactly when at least one datagram parsed successfully; with no success
the state is completely unchanged (failed parses change nothing); the
stored pose, remote flag and receive timestamp afterwards reflect only
the last successfully parsed datagram; and the packet/byte statistics
grow by exactly the count and delivered sizes of the successfully parsed
datagrams. -/
theorem c5_poll_contract (now : ℤ) (s : PollingState)
    (queue : List Datagram) (hinit : s.initialized = true) :
    ((poll now s queue).1 = true ↔
      successes (drainList queue kMaxPacketsPerFrame) ≠ []) ∧
    (successes (drainList queue kMaxPacketsPerFrame) = [] →
      (poll now s queue).2 = s) ∧
    (∀ (l : List Datagram) (d : Datagram) (v : ℚ × ℚ × ℚ),
      successes (drainList queue kMaxPacketsPerFrame) = l ++ [d] →
      parsePacket d = Option.some v →
        (poll now s queue).2.yaw = v.1 ∧
          (poll now s queue).2.pitch = v.2.1 ∧
          (poll now s queue).2.roll = v.2.2 ∧
          (poll now s queue).2.isRemoteConnection = d.remoteSender ∧
          (poll now s queue).2.hasData = true ∧
          (poll now s queue).2.lastReceiveTimeMs = now) ∧
    ((poll now s queue).2.packetsReceived = s.packetsReceived +
      (successes (drainList queue kMaxPacketsPerFrame)).length) ∧
    ((poll now s queue).2.bytesReceived = s.bytesReceived +
      ((successes (drainList queue kMaxPacketsPerFrame)).map
        recvLen).sum) := by
  have hguard : ¬(s.initialized = false) := by simp [hinit]
  have hchar := pollLoop_characterization queue kMaxPacketsPerFrame s
  have hall : ∀ d ∈ successes (drainList queue kMaxPacketsPerFrame),
      (parsePacket d).isSome = true :=
    fun d hd => successes_mem _ d hd
  refine ⟨?_, ?_, ?_, ?_, ?_⟩
  · rw [poll, if_neg hguard, hchar]
    cases successes (drainList queue kMaxPacketsPerFrame) with
    | nil => simp
    | cons a as => simp
  · intro hL
    rw [poll, if_neg hguard, hchar, hL]
    simp
  · intro l d v hL hv
    rw [poll, if_neg hguard, hchar, hL]
    simp only [if_pos (show (!(l ++ [d]).isEmpty) = true by simp)]
    rw [List.foldl_append, List.foldl_cons, List.foldl_nil, pollApply, hv]
    simp
  · rw [poll, if_neg hguard, hchar]
    have hp := foldl_pollApply_packets
      (successes (drainList queue kMaxPacketsPerFrame)) s hall
    by_cases hb :
        (!(successes (drainList queue kMaxPacketsPerFrame)).isEmpty) = true
    · simp only [if_pos hb]
      exact hp
    · simp only [if_neg hb]
      exact hp
  · rw [poll, if_neg hguard, hchar]
    have hp := foldl_pollApply_bytes
      (successes (drainList queue kMaxPacketsPerFrame)) s hall
    by_cases hb :
        (!(successes (drainList queue kMaxPacketsPerFrame)).isEmpty) = true
    · simp only [if_pos hb]
      exact hp
    · simp only [if_neg hb]
      exact hp

/-- Freshly initialized polling receiver state. -/
def examplePollingState : PollingState :=
  ⟨true, 0, 0, 0, false, 0, 0, 0, false, 0, false, 0, 0⟩

/-- A second valid 48-byte buffer: yaw = 1.0 (0x3FF0000000000000),
pitch = 0.0, roll = 0.0. -/
def exampleBuffer2 : List UInt8 :=
  List.replicate 24 0 ++
    [0, 0, 0, 0, 0, 0, 0xF0, 0x3F] ++
    List.replicate 16 0

/-- Burst of three datagrams for one Poll call: a valid local packet, a
malformed 10-byte packet from a remote sender, and a valid remote
packet. -/
def exampleQueue : List Datagram :=
  [⟨exampleBuffer, false⟩, ⟨List.replicate 10 0, true⟩,
    ⟨exampleBuffer2, true⟩]

/-- C5 witness: the statistics clause of the contract applied to the
example burst on a freshly initialized receiver at time 5. -/
theorem c5_poll_contract_witness :
    (poll 5 examplePollingState exampleQueue).2.packetsReceived =
      examplePollingState.packetsReceived +
        (successes (drainList exampleQueue kMaxPacketsPerFrame)).length :=
  (c5_poll_contract 5 examplePollingState exampleQueue rfl).2.2.2.1

/-- Polling receiver mid-session: initialized, latest pose yaw 5 held, 3
packets and 144 bytes of statistics. -/
def c4PollingExample : PollingState :=
  ⟨true, 5, 0, 0, true, 0, 0, 0, false, 100, false, 3, 144⟩

/-- C4 counterexample: PollingUdpReceiver::Shutdown does not reset the
published session state: after Shutdown the rotation getter still
returns the last pose and the statistics survive, contradicting the
claim that the getters return false until new data arrives. -/
theorem c4_shutdown_keeps_state :
    pollingGetRotation (pollingShutdown c4PollingExample) =
        Option.some (5, 0, 0) ∧
      (pollingShutdown c4PollingExample).packetsReceived = 3 ∧
      (pollingShutdown c4PollingExample).bytesReceived = 144 := by
  decide

/-- C4 (amended): Stop on the threaded receiver resets every published
and connection field to its zero/unset default, so its rotation getter
returns false; Shutdown on the polling receiver only clears the
initialized flag (closing the socket) and leaves pose, offsets,
timestamp and statistics in place — they are zeroed by the next
Initialize, whose resulting state reports no data. -/
theorem c4_stop_and_shutdown :
    (∀ s : ThreadedState, s.running = true →
      udpStop s = ⟨false, 0, 0, 0, false, 0, 0, 0, 0, false⟩ ∧
        udpGetRotation (udpStop s) = Option.none) ∧
    (∀ s : PollingState, s.initialized = true →
      pollingShutdown s = { s with initialized := false } ∧
        pollingGetRotation (pollingShutdown s) = pollingGetRotation s) ∧
    (∀ s : PollingState, s.initialized = false →
      (initializeReceiver s true).2.hasData = false ∧
        (initializeReceiver s true).2.packetsReceived = 0 ∧
        (initializeReceiver s true).2.bytesReceived = 0 ∧
        (initializeReceiver s true).2.lastReceiveTimeMs = 0 ∧
        (initializeReceiver s true).2.isRemoteConnection = false ∧
        (initializeReceiver s true).2.hasOffset = false ∧
        pollingGetRotation (initializeReceiver s true).2 =
          Option.none) := by
  refine ⟨fun s h => ?_, fun s h => ?_, fun s h => ?_⟩
  · constructor
    · simp [udpStop, h]
    · simp [udpGetRotation, udpStop, h]
  · constructor
    · simp [pollingShutdown, h]
    · simp [pollingGetRotation, pollingShutdown, h]
  · simp [initializeReceiver, pollingGetRotation, h]

/-- Threaded receiver mid-session: running with a published pose, offsets
and a receive timestamp. -/
def c4ThreadedExample : ThreadedState :=
  ⟨true, 1, 2, 3, true, 4, 5, 6, 50, true⟩

/-- C4 witness: the threaded clause applied to the running example
state. -/
theorem c4_stop_and_shutdown_witness :
    udpGetRotation (udpStop c4ThreadedExample) = Option.none :=
  (c4_stop_and_shutdown.1 c4ThreadedExample rfl).2

end HeadCannon
